import Mathlib

/-!
Verification of the DocVision OCR frontend (src/frontend/src/App.jsx and
src/frontend/src/services/api.js) against its specification.  The client
code is embedded shallowly: JSX event handlers become pure functions on an
explicit client-state record, JavaScript truthiness on strings is made
explicit, and optional JSON fields become Option values.
-/

namespace DocVision

/-- The three document types offered by the upload screen of App.jsx
(the INVOICE, CONTRACT and CRAC buttons) and recognized by the backend. -/
inductive DocType
| invoice
| contract
| crac
deriving DecidableEq, Repr

/-- The string value each document type has in the JavaScript code. -/
def DocType.toStr : DocType → String
| DocType.invoice => "invoice"
| DocType.contract => "contract"
| DocType.crac => "crac"

/-- Models the JavaScript expression `s || d` for an optional string `s`:
the default `d` is produced when `s` is absent (undefined) or empty,
since both undefined and the empty string are falsy in JavaScript. -/
def jsStrOr : Option String → String → String
| some s, d => if s = "" then d else s
| none, d => d

/-- A message received on the websocket, as destructured by the callback in
the App useEffect (App.jsx lines 37-44): a type tag, an optional
current_file, and a progress percentage. -/
structure WsMessage where
  type : String
  current_file : Option String
  progress_pct : Nat

/-- The PROCESS log line built for a batch_update message (App.jsx line 39):
`[ts] PROCESS: <current_file or fallback> (<pct>%)`. -/
def processLine (ts : String) (m : WsMessage) : String :=
  "[" ++ ts ++ "] PROCESS: " ++ jsStrOr m.current_file ("Processing...")
    ++ " (" ++ toString m.progress_pct ++ "%)"

/-- The SYSTEM log line built for a connected message (App.jsx line 42). -/
def systemLine (ts : String) : String :=
  "[" ++ ts ++ "] SYSTEM: Neural Connection Established"

/-- The websocket callback of App.jsx lines 37-44, acting on the previous
ocrLogs list: a batch_update message prepends its PROCESS line and keeps
the first 50 entries (`slice(0, 50)`); a connected message prepends the
SYSTEM line without truncation; any other message leaves the logs alone. -/
def wsCallback (ts : String) (m : WsMessage) (prev : List String) : List String :=
  if m.type = "batch_update" then (processLine ts m :: prev).take 50
  else if m.type = "connected" then systemLine ts :: prev
  else prev

/-- The frontend dev ports listed in getBackendPort (api.js line 6). -/
def frontendDevPorts : List String :=
  ["5173", "5174", "5175", "5176", "5177", "5178", "5179", "3000", "3001"]

/-- getBackendPort of api.js lines 3-10: the backend port 8003 on a known
frontend dev port, otherwise `currentPort || 8001` where the JavaScript
or-expression falls back to 8001 exactly when the port string is empty. -/
def getBackendPort (locationPort : String) : String :=
  if locationPort ∈ frontendDevPorts then "8003"
  else if locationPort = "" then "8001"
  else locationPort

/-- API_BASE_URL of api.js line 13, built from the hostname and the single
BACKEND_PORT value computed by getBackendPort. -/
def apiBaseUrl (hostname locationPort : String) : String :=
  "http://" ++ hostname ++ ":" ++ getBackendPort locationPort ++ "/api"

/-- The websocket URL of createWebSocket (api.js line 58), built from the
hostname and the same BACKEND_PORT value as the HTTP base URL. -/
def webSocketUrl (hostname locationPort : String) : String :=
  "ws://" ++ hostname ++ ":" ++ getBackendPort locationPort ++ "/ws/batches"

/-- One tick of the upload progress interval (App.jsx line 75):
`prev < 90 ? prev + 5 : prev`. -/
def progressTick (p : Nat) : Nat := if p < 90 then p + 5 else p

/-- The uploadProgress value after n interval ticks of an active upload:
handleFileUpload starts it at 10 (App.jsx line 72) and each tick applies
progressTick. -/
def uploadProgressAfter : Nat → Nat
| 0 => 10
| n + 1 => progressTick (uploadProgressAfter n)

/-- The sequence of uploadProgress values over a successful upload that saw
n interval ticks: the initial 10, each ticked value, and the final 100 set
on the successful response (App.jsx line 80). -/
def uploadProgressTrace (n : Nat) : List Nat :=
  ((List.range (n + 1)).map uploadProgressAfter) ++ [100]

/-- The three buttons of the doc-type selection row (App.jsx lines 277-296);
clicking one is the only way the UI changes selectedDocType. -/
inductive DocTypeButton
| invoiceBtn
| contractBtn
| cracBtn

/-- The document type a button click selects (the setSelectedDocType call
wired to each button). -/
def clickDocType : DocTypeButton → DocType
| DocTypeButton.invoiceBtn => DocType.invoice
| DocTypeButton.contractBtn => DocType.contract
| DocTypeButton.cracBtn => DocType.crac

/-- The initial selectedDocType state (App.jsx line 31). -/
def initialSelectedDocType : DocType := DocType.invoice

/-- The selectedDocType value after a sequence of button clicks, starting
from the initial state. -/
def selectedDocTypeAfter (clicks : List DocTypeButton) : DocType :=
  clicks.foldl (fun _ b => clickDocType b) initialSelectedDocType

/-- The fixed leading part of the upload request URL in
ocrService.uploadFile (api.js line 28). -/
def uploadRoute : String := "process/upload?doc_type="

/-- The request URL built by ocrService.uploadFile (api.js line 28):
`process/upload?doc_type=` followed by exactly the type argument. -/
def uploadFile (t : String) : String := uploadRoute ++ t

/-- Reads the doc_type query parameter back out of an upload request URL. -/
def uploadDocTypeParam (url : String) : String :=
  url.drop uploadRoute.length

/-- The query parameters built by ocrService.getResults (api.js line 40):
`docType ? \x7b doc_type: docType \x7d : \x7b\x7d`, where a null or empty
(falsy) argument yields no parameters. -/
def getResultsParams (docType : Option String) : List (String × String) :=
  match docType with
  | some t => if t = "" then [] else [(("doc_type" : String), t)]
  | none => []

/-- The error information available in the catch branch of handleFileUpload
(App.jsx line 96): the optional response detail field
(`err.response?.data?.detail`, absent when there is no response body) and
the error message (`err.message`). -/
structure UploadError where
  detail : Option String
  message : String

/-- The outcome of the upload request awaited by handleFileUpload: a
successful response carrying processing_time_seconds (App.jsx line 83,
kept as its rendered text), or a failure with its error information. -/
inductive UploadOutcome
| success (processingTimeSeconds : String)
| failure (e : UploadError)

/-- The pieces of App component state that handleFileUpload touches. -/
structure ClientState where
  isUploading : Bool
  uploadProgress : Nat
  activeTab : String
  ocrLogs : List String

/-- The observable effects of one handleFileUpload response: the alert
raised (if any), whether fetchResults and fetchStats were called, and
whether the progress interval was cleared. -/
structure UploadEffects where
  alertMsg : Option String
  fetchedResults : Bool
  fetchedStats : Bool
  clearedInterval : Bool

/-- The SUCCESS log line of App.jsx line 83:
`[ts] SUCCESS: <file.name> processed in <processing_time_seconds>s`. -/
def successLine (ts fileName t : String) : String :=
  "[" ++ ts ++ "] SUCCESS: " ++ fileName ++ " processed in " ++ t ++ "s"

/-- The response handling of handleFileUpload (App.jsx lines 78-97), as the
client state after the handler (including the deferred setTimeout body on
success) and the effects it performed.  On success: interval cleared, the
SUCCESS line prepended, and after the timeout the upload state is reset,
the active tab switched to results, and results and stats refetched.  On
failure: interval cleared, upload state cleared, and an alert raised with
`err.response?.data?.detail || err.message`; the tab, logs, results and
stats are untouched. -/
def handleUploadResponse (ts fileName : String) (outcome : UploadOutcome)
    (st : ClientState) : ClientState × UploadEffects :=
  match outcome with
  | UploadOutcome.success t =>
      ({ st with isUploading := false, uploadProgress := 0,
                 activeTab := "results",
                 ocrLogs := successLine ts fileName t :: st.ocrLogs },
       { alertMsg := none, fetchedResults := true, fetchedStats := true,
         clearedInterval := true })
  | UploadOutcome.failure e =>
      ({ st with isUploading := false },
       { alertMsg := some (("Processing failed: ") ++ jsStrOr e.detail e.message),
         fetchedResults := false, fetchedStats := false,
         clearedInterval := true })

/-- The nearest-tenth integer (the value times ten, rounded half up,
that is the floor of 10q + 1/2) used to render a number to one decimal
place, computed with floor division on the numerator and denominator. -/
def roundTenths (q : ℚ) : ℤ :=
  Int.fdiv (20 * q.num + (q.den : ℤ)) (2 * (q.den : ℤ))

/-- Decimal model of the JavaScript `x.toFixed(1)`: the value rounded to
one decimal place and printed with exactly one digit after the point. -/
def toFixed1 (q : ℚ) : String :=
  (if roundTenths q < 0 then ("-") else ("")) ++
    toString ((roundTenths q).natAbs / 10) ++ "." ++
    toString ((roundTenths q).natAbs % 10)

/-- The confidence cell of a result row (App.jsx line 343):
`(res.structured_data?.confidence * 100 || 95).toFixed(1) + <percent>`.
The optional argument is `structured_data?.confidence`, absent when
structured_data or its confidence field is missing; in JavaScript an
absent confidence makes `confidence * 100` NaN, which like 0 is falsy and
selects the 95 default. -/
def confidenceDisplay (confidence : Option ℚ) : String :=
  match confidence with
  | none => "95.0%"
  | some c => if c * 100 = 0 then "95.0%" else toFixed1 (c * 100) ++ "%"

/-- Modelled from the spec: the Result record persisted by the backend
Result Store (spec section 3); the store itself is backend code not under
src, so only the fields the aggregate counts depend on are carried along
with the identifying metadata. -/
structure Result where
  id : Nat
  file_name : String
  doc_type : DocType
  processed_at : Nat

/-- Modelled from the spec: one mutation of the Result Store — `save`
persists a new Result, `delete` removes a Result by id (idempotently,
removing nothing when the id is absent). -/
inductive StoreOp
| save (r : Result)
| remove (id : Nat)

/-- Modelled from the spec: applying one store mutation to the stored
Results. -/
def applyOp (s : List Result) : StoreOp → List Result
| StoreOp.save r => r :: s
| StoreOp.remove i => s.filter (fun r => r.id ≠ i)

/-- Modelled from the spec: the stored Results after a sequence of
creates and deletes, starting from an empty store. -/
def applyOps (ops : List StoreOp) : List Result :=
  ops.foldl applyOp []

/-- Modelled from the spec: `list(filter: doc_type?)` returns the stored
Results, filtered by doc_type when a filter is given (the processed_at
ordering of the spec is omitted — it does not affect membership or
counts). -/
def listResults (s : List Result) (filter : Option DocType) : List Result :=
  match filter with
  | none => s
  | some t => s.filter (fun r => r.doc_type = t)

/-- The number of stored Results of one document type. -/
def countType (s : List Result) (t : DocType) : Nat :=
  (s.filter (fun r => r.doc_type = t)).length

/-- The aggregate counts record (the stats consumed by the dashboard of
App.jsx lines 200-205). -/
structure Counts where
  total : Nat
  invoice : Nat
  contract : Nat
  crac : Nat
deriving DecidableEq, Repr

/-- Modelled from the spec: `aggregateCounts()` computes the total and the
per-doc_type counts directly from the stored Results, with no separately
maintained counter. -/
def aggregateCounts (s : List Result) : Counts :=
  { total := s.length
  , invoice := countType s DocType.invoice
  , contract := countType s DocType.contract
  , crac := countType s DocType.crac }

/-- A concrete timestamp used below for concrete evaluations. -/
def ts0 : String := "12:00:00 PM"

/-- A batch_update message whose current_file is present but empty. -/
def m0 : WsMessage :=
  { type := "batch_update", current_file := some (""), progress_pct := 50 }

/-- A batch_update message with no current_file. -/
def mb : WsMessage :=
  { type := "batch_update", current_file := none, progress_pct := 40 }

/-- A connected message. -/
def mc : WsMessage :=
  { type := "connected", current_file := none, progress_pct := 0 }

/-- A failed upload whose response detail is present but empty. -/
def err0 : UploadError := { detail := some (""), message := "Network Error" }

/-- A client state in the middle of an upload. -/
def st0 : ClientState :=
  { isUploading := true, uploadProgress := 40, activeTab := "upload",
    ocrLogs := [] }

/-- Invariant of the ticked upload progress: starting from 10, every value
is between 10 and 90 and a multiple of 5 (so a tick from below 90 cannot
overshoot 90). -/
theorem progress_invariant (n : Nat) :
    10 ≤ uploadProgressAfter n ∧ uploadProgressAfter n ≤ 90
      ∧ 5 ∣ uploadProgressAfter n := by
  induction n with
  | zero => exact ⟨by decide, by decide, by decide⟩
  | succ n ih =>
      obtain ⟨h1, h2, h3⟩ := ih
      obtain ⟨k, hk⟩ := h3
      simp only [uploadProgressAfter, progressTick]
      by_cases h : uploadProgressAfter n < 90
      · rw [if_pos h]
        exact ⟨by omega, by omega, ⟨k + 1, by omega⟩⟩
      · rw [if_neg h]
        exact ⟨h1, h2, ⟨k, hk⟩⟩

/-- The per-type counts of stored Results partition the whole store: every
Result has one of the three document types. -/
theorem countType_partition (s : List Result) :
    countType s DocType.invoice + countType s DocType.contract
      + countType s DocType.crac = s.length := by
  induction s with
  | nil => rfl
  | cons r t ih =>
      cases hr : r.doc_type <;>
        simp [countType, List.filter_cons, hr] at ih ⊢ <;> omega

/-- C2: while an upload is active the client upload progress is
monotonically non-decreasing and stays within 0-100: it starts at 10, a
tick adds 5 exactly when the value is below 90 and otherwise leaves it
unchanged, so every ticked value lies in [10, 90], and over a successful
run the value 100 appears exactly once (set on the successful response). -/
theorem c2_upload_progress (n : Nat) :
    uploadProgressAfter 0 = 10
    ∧ 10 ≤ uploadProgressAfter n
    ∧ uploadProgressAfter n ≤ 90
    ∧ uploadProgressAfter n ≤ uploadProgressAfter (n + 1)
    ∧ (uploadProgressAfter n < 90 →
        uploadProgressAfter (n + 1) = uploadProgressAfter n + 5)
    ∧ (¬ uploadProgressAfter n < 90 →
        uploadProgressAfter (n + 1) = uploadProgressAfter n)
    ∧ (∀ x ∈ uploadProgressTrace n, x ≤ 100)
    ∧ (uploadProgressTrace n).count 100 = 1 := by
  obtain ⟨h1, h2, -⟩ := progress_invariant n
  refine ⟨rfl, h1, h2, ?_, ?_, ?_, ?_, ?_⟩
  · show _ ≤ progressTick _
    unfold progressTick
    split <;> omega
  · intro h
    show progressTick _ = _
    rw [progressTick, if_pos h]
  · intro h
    show progressTick _ = _
    rw [progressTick, if_neg h]
  · intro x hx
    rcases List.mem_append.mp hx with hx | hx
    · obtain ⟨k, -, rfl⟩ := List.mem_map.mp hx
      have hk := (progress_invariant k).2.1
      omega
    · simp only [List.mem_singleton] at hx
      omega
  · rw [uploadProgressTrace, List.count_append]
    have hz : ((List.range (n + 1)).map uploadProgressAfter).count 100 = 0 := by
      rw [List.count_eq_zero]
      intro hmem
      obtain ⟨k, -, hk⟩ := List.mem_map.mp hmem
      have hb := (progress_invariant k).2.1
      omega
    rw [hz]
    rfl

/-- C2 witness: concrete progress values — after two ticks the value 20 is
below 90 so the third tick adds 5, and at the 90 plateau (reached after 16
ticks) a further tick leaves the value unchanged. -/
theorem c2_upload_progress_witness :
    uploadProgressAfter (2 + 1) = uploadProgressAfter 2 + 5
    ∧ uploadProgressAfter (16 + 1) = uploadProgressAfter 16 := by
  constructor
  · exact (c2_upload_progress 2).2.2.2.2.1 (by decide)
  · exact (c2_upload_progress 16).2.2.2.2.2.1 (by decide)

/-- C3: the selected document type starts at invoice and, after any
sequence of clicks on the three selection buttons, is one of invoice,
contract or crac; the upload request built by ocrService.uploadFile
carries exactly the selected type as its doc_type query parameter. -/
theorem c3_upload_doc_type (clicks : List DocTypeButton) :
    initialSelectedDocType = DocType.invoice
    ∧ (selectedDocTypeAfter clicks).toStr
        ∈ (["invoice", "contract", "crac"] : List String)
    ∧ uploadDocTypeParam (uploadFile (selectedDocTypeAfter clicks).toStr)
        = (selectedDocTypeAfter clicks).toStr := by
  refine ⟨rfl, ?_, ?_⟩ <;> cases selectedDocTypeAfter clicks <;> decide

/-- C4: for any sequence of creates and deletes the aggregate total equals
the length of the unfiltered Result list, and the per-doc_type counts sum
to that total; the counts are a pure function of the stored Results. -/
theorem c4_aggregate_counts (ops : List StoreOp) :
    (aggregateCounts (applyOps ops)).total
        = (listResults (applyOps ops) none).length
    ∧ (aggregateCounts (applyOps ops)).invoice
        + (aggregateCounts (applyOps ops)).contract
        + (aggregateCounts (applyOps ops)).crac
        = (aggregateCounts (applyOps ops)).total :=
  ⟨rfl, countType_partition (applyOps ops)⟩

/-- C7: the results request carries a doc_type query parameter exactly
when a filter type is selected in the filter row, holding the selected
type, and carries no filter parameter for the null (All) selection. -/
theorem c7_results_filter_param (f : Option DocType) :
    getResultsParams (f.map DocType.toStr)
      = Option.toList (f.map fun t => (("doc_type" : String), t.toStr)) := by
  cases f with
  | none => rfl
  | some t => cases t <;> decide

/-- C8: getBackendPort answers 8003 on the known frontend dev ports,
otherwise the page port itself when non-empty and 8001 when the page has
no port; both the HTTP API base URL and the websocket URL are built from
that single value. -/
theorem c8_backend_port (hostname port : String) :
    (port ∈ frontendDevPorts → getBackendPort port = "8003")
    ∧ (port ∉ frontendDevPorts → port ≠ "" → getBackendPort port = port)
    ∧ (port ∉ frontendDevPorts → port = "" → getBackendPort port = "8001")
    ∧ apiBaseUrl hostname port
        = "http://" ++ hostname ++ ":" ++ getBackendPort port ++ "/api"
    ∧ webSocketUrl hostname port
        = "ws://" ++ hostname ++ ":" ++ getBackendPort port ++ "/ws/batches" := by
  refine ⟨?_, ?_, ?_, rfl, rfl⟩
  · intro h
    simp only [getBackendPort]
    rw [if_pos h]
  · intro h hne
    simp only [getBackendPort]
    rw [if_neg h, if_neg hne]
  · intro h he
    simp only [getBackendPort]
    rw [if_neg h, if_pos he]

/-- C8 witness: a dev port maps to 8003, a non-dev port maps to itself,
and the empty port maps to 8001. -/
theorem c8_backend_port_witness :
    getBackendPort ("5173") = "8003"
    ∧ getBackendPort ("8080") = "8080"
    ∧ getBackendPort ("") = "8001" := by
  refine ⟨?_, ?_, ?_⟩
  · exact (c8_backend_port ("localhost") ("5173")).1 (by decide)
  · exact (c8_backend_port ("localhost") ("8080")).2.1 (by decide) (by decide)
  · exact (c8_backend_port ("localhost") ("")).2.2.1 (by decide) rfl

/-- C1 counterexample: a batch_update message whose current_file is
present but empty.  The claim as stated says the PROCESS line then shows
the current file (the fallback is reserved for an absent current_file),
which would give the line with an empty file slot; the handler instead
shows the Processing fallback, because the empty string is falsy in
JavaScript. -/
theorem c1_ws_counterexample :
    m0.current_file = some ("")
    ∧ wsCallback ts0 m0 []
        = [("[12:00:00 PM] PROCESS: Processing... (50%)")]
    ∧ (("[12:00:00 PM] PROCESS: Processing... (50%)") : String)
        ≠ "[12:00:00 PM] PROCESS:  (50%)" := by
  exact ⟨rfl, by decide, by decide⟩

/-- C1 (amended): for every batch_update message the websocket handler
prepends a PROCESS line showing the current file — or the Processing
fallback when current_file is absent or empty — together with the
progress percentage, and for a connected message it prepends the
connection-established SYSTEM line. -/
theorem c1_ws_messages (ts : String) (m : WsMessage) (prev : List String) :
    (m.type = "batch_update" →
      (wsCallback ts m prev).head?
        = some (("[") ++ ts ++ "] PROCESS: "
            ++ jsStrOr m.current_file ("Processing...")
            ++ " (" ++ toString m.progress_pct ++ "%)"))
    ∧ (m.type = "connected" →
      (wsCallback ts m prev).head?
        = some (("[") ++ ts ++ "] SYSTEM: Neural Connection Established")) := by
  constructor
  · intro h
    rw [wsCallback, if_pos h, show (50 : Nat) = 49 + 1 from rfl,
      List.take_succ_cons]
    rfl
  · intro h
    rw [wsCallback, if_neg (by rw [h]; decide), if_pos h]
    rfl

/-- C1 witness: the handler on a concrete batch_update message with no
current_file and on a concrete connected message. -/
theorem c1_ws_messages_witness :
    (wsCallback ts0 mb []).head?
      = some (("[") ++ ts0 ++ "] PROCESS: "
          ++ jsStrOr mb.current_file ("Processing...")
          ++ " (" ++ toString mb.progress_pct ++ "%)")
    ∧ (wsCallback ts0 mc []).head?
      = some (("[") ++ ts0 ++ "] SYSTEM: Neural Connection Established") :=
  ⟨(c1_ws_messages ts0 mb []).1 rfl, (c1_ws_messages ts0 mc []).2 rfl⟩

/-- C5 counterexample: a failed upload whose response detail is present
but empty.  The claim as stated surfaces the detail field whenever it is
present, which here would alert the empty reason; the handler instead
alerts the error message, because the JavaScript or-expression treats the
empty detail as falsy. -/
theorem c5_upload_failure_counterexample :
    err0.detail = some ("")
    ∧ (handleUploadResponse ts0 ("scan.pdf")
          (UploadOutcome.failure err0) st0).2.alertMsg
        = some ("Processing failed: Network Error")
    ∧ (some (("Processing failed: Network Error") : String))
        ≠ some (("Processing failed: ") : String) := by
  exact ⟨rfl, by decide, by decide⟩

/-- C5 (amended): on a failed upload the client synchronously alerts a
failure reason built from the response detail field when it is present
and non-empty, otherwise from the error message; it clears the interval
timer and the uploading state, and it neither switches the active tab nor
refetches results or stats. -/
theorem c5_upload_failure (ts fileName : String) (e : UploadError)
    (st : ClientState) :
    (handleUploadResponse ts fileName (UploadOutcome.failure e) st).2.alertMsg
        = some (("Processing failed: ") ++ jsStrOr e.detail e.message)
    ∧ (handleUploadResponse ts fileName (UploadOutcome.failure e) st).2.clearedInterval
        = true
    ∧ (handleUploadResponse ts fileName (UploadOutcome.failure e) st).1.isUploading
        = false
    ∧ (handleUploadResponse ts fileName (UploadOutcome.failure e) st).1.activeTab
        = st.activeTab
    ∧ (handleUploadResponse ts fileName (UploadOutcome.failure e) st).1.ocrLogs
        = st.ocrLogs
    ∧ (handleUploadResponse ts fileName (UploadOutcome.failure e) st).2.fetchedResults
        = false
    ∧ (handleUploadResponse ts fileName (UploadOutcome.failure e) st).2.fetchedStats
        = false :=
  ⟨rfl, rfl, rfl, rfl, rfl, rfl, rfl⟩

/-- C6: on a successful upload response, which carries the processing
duration, the client prepends the SUCCESS log line naming the file and
that duration, switches the active tab to the results view, and refetches
both the result list and the aggregate stats. -/
theorem c6_upload_success (ts fileName t : String) (st : ClientState) :
    (handleUploadResponse ts fileName (UploadOutcome.success t) st).1.ocrLogs.head?
        = some (("[") ++ ts ++ "] SUCCESS: " ++ fileName
            ++ " processed in " ++ t ++ "s")
    ∧ (handleUploadResponse ts fileName (UploadOutcome.success t) st).1.activeTab
        = "results"
    ∧ (handleUploadResponse ts fileName (UploadOutcome.success t) st).2.fetchedResults
        = true
    ∧ (handleUploadResponse ts fileName (UploadOutcome.success t) st).2.fetchedStats
        = true :=
  ⟨rfl, rfl, rfl, rfl⟩

/-- C9: the displayed confidence of a result row is the 95.0 percent
default when the confidence value is absent (making the product NaN,
falsy) or zero, and otherwise the confidence times 100 rendered to one
decimal place followed by a percent sign. -/
theorem c9_confidence_display (conf : Option ℚ) :
    (conf = none → confidenceDisplay conf = "95.0%")
    ∧ (conf = some 0 → confidenceDisplay conf = "95.0%")
    ∧ (∀ c : ℚ, conf = some c → c ≠ 0 →
        confidenceDisplay conf = toFixed1 (c * 100) ++ "%") := by
  refine ⟨?_, ?_, ?_⟩
  · rintro rfl
    rfl
  · rintro rfl
    simp [confidenceDisplay]
  · rintro c rfl hc
    simp only [confidenceDisplay]
    rw [if_neg (mul_ne_zero hc (by norm_num))]

/-- C9 witness: the default shows for an absent and for a zero confidence,
and a confidence of 87/100 displays as 87.0 percent. -/
theorem c9_confidence_display_witness :
    confidenceDisplay none = "95.0%"
    ∧ confidenceDisplay (some 0) = "95.0%"
    ∧ confidenceDisplay (some ((87 : ℚ) / 100)) = "87.0%" := by
  refine ⟨(c9_confidence_display none).1 rfl,
    (c9_confidence_display (some 0)).2.1 rfl, ?_⟩
  have h := (c9_confidence_display (some ((87 : ℚ) / 100))).2.2
    ((87 : ℚ) / 100) rfl (by norm_num)
  rw [h, show ((87 : ℚ) / 100 * 100) = 87 by norm_num]
  simp only [toFixed1, roundTenths, Rat.num_ofNat, Rat.den_ofNat]
  decide

/-- C10: after the handler processes a batch_update message the log list
is exactly the new PROCESS line followed by the previous entries, cut to
the 50 most recent: at most 50 entries, newest first, older entries
discarded. -/
theorem c10_log_cap (ts : String) (m : WsMessage) (prev : List String)
    (h : m.type = "batch_update") :
    (wsCallback ts m prev).length ≤ 50
    ∧ (wsCallback ts m prev).head? = some (processLine ts m)
    ∧ wsCallback ts m prev = (processLine ts m :: prev).take 50 := by
  have hw : wsCallback ts m prev = (processLine ts m :: prev).take 50 := by
    rw [wsCallback, if_pos h]
  refine ⟨?_, ?_, hw⟩
  · rw [hw, List.length_take]
    omega
  · rw [hw, show (50 : Nat) = 49 + 1 from rfl, List.take_succ_cons]
    rfl

/-- C10 witness: a batch_update arriving on top of 60 old entries leaves
at most 50 log entries. -/
theorem c10_log_cap_witness :
    mb.type = "batch_update"
    ∧ (wsCallback ts0 mb (List.replicate 60 ("x"))).length ≤ 50 :=
  ⟨rfl, (c10_log_cap ts0 mb (List.replicate 60 ("x")) rfl).1⟩

end DocVision
